import Mathlib

set_option maxRecDepth 4000

/-!
Verification development for the delegation-broker and task-orchestration core
of the repository (orchestrator graph, token broker, identity client).

Components embedded here, each from its source file:

* `Orch`       — the LangGraph orchestrator workflow of
                 `agents/orchestrator/graph.py` (`execute_task_node`,
                 `should_continue_execution`, the execute loop).
* `AgentWf`    — the sequential workflow of `agents/orchestrator/agent.py`
                 (`decompose_to_tasks`, `_fallback_decompose`, `process_workflow`).
* `BrokerM`    — the token broker of `src/auth/token_broker.py`
                 (`exchange_token_for_agent`, `_log_audit`) together with the
                 request construction of `perform_token_exchange` in
                 `src/auth/asgardeo.py`.
* `ActorCache` — the actor-token cache of `AsgardeoClient.get_actor_token` in
                 `src/auth/asgardeo.py`, plus a cooperative-interleaving model
                 of two concurrent callers (the async functions suspend exactly
                 at the awaited fetch).

External collaborators (LLM planner, HTTP transport, identity provider
endpoints) are modelled as function parameters; everything the repository's own
code computes is translated directly.
-/

namespace Orch

/-- Python substring test over explicit character lists (`pat in hay`). -/
def charsInfix (pat : List Char) : List Char → Bool
  | [] => pat.isEmpty
  | c :: rest => pat.isPrefixOf (c :: rest) || charsInfix pat rest

/-- Python `pat in hay` on strings: substring containment. -/
def strContains (hay pat : String) : Bool :=
  charsInfix pat.data hay.data

/-- Python `s.lower()` (ASCII case folding, character by character). -/
def strToLower (s : String) : String :=
  ⟨s.data.map Char.toLower⟩

/-- Python `s[:n]`: the first `n` characters. -/
def strTake (s : String) (n : Nat) : String :=
  ⟨s.data.take n⟩

/-- One entry of `task_plan` in `graph.py` (`{step, agent_name, agent_url, task}`). -/
structure Task where
  step : Nat
  agent_name : String
  agent_url : String
  task : String
deriving DecidableEq

/-- `approval["status"]` values tracked by `execute_task_node`. -/
inductive ApprovalStatus
  | approved
  | denied
deriving DecidableEq

/-- One entry of `approval_decisions` in `graph.py`:
`{"task": ..., "status": ..., "reason": ..., "linked_task_step": ...}`;
`linked_task_step` is `None` when the approval task has no following task. -/
structure ApprovalDecision where
  task : String
  status : ApprovalStatus
  reason : String
  linked_task_step : Option Nat
deriving DecidableEq

/-- One entry of `task_results` in `graph.py`
(`{step, agent, task, result, success}` plus the `skipped` key which the source
sets to `True` only in the denied-approval branch; absent elsewhere, modelled
as `false`). -/
structure TaskResult where
  step : Nat
  agent : String
  task : String
  result : String
  success : Bool
  skipped : Bool
deriving DecidableEq

/-- Outcome of the external work of one iteration of `execute_task_node`:
either the token exchange together with `call_agent` completed and response
parsing produced a text and a success flag, or one of them raised. -/
inductive InvokeOutcome
  | response (text : String) (success : Bool)
  | raises (err : String)

/-- The fields of `OrchestratorState` that the execute loop reads and writes.
`invoked` is a ghost log of the loop indices whose iteration performed the
token exchange / agent invocation (i.e. entered the `try` block). -/
structure OrchState where
  task_plan : List Task
  current_task_index : Nat
  task_results : List TaskResult
  approval_decisions : List ApprovalDecision
  invoked : List Nat
deriving DecidableEq

/-- `graph.py:197-201`: first approval with
`approval.get("linked_task_step") == current_step and approval["status"] == "denied"`. -/
def findDenied (decisions : List ApprovalDecision) (step : Nat) : Option ApprovalDecision :=
  decisions.find? fun approval =>
    decide (approval.linked_task_step = some step) && decide (approval.status = .denied)

/-- `graph.py:208-215`: the task result recorded for a skipped task. -/
def skippedResult (t : Task) (d : ApprovalDecision) : TaskResult :=
  { step := t.step, agent := t.agent_name, task := t.task
    result := "⏭️ SKIPPED - Approval denied: " ++ strTake d.reason 100
    success := false, skipped := true }

/-- `graph.py:357-363`: the task result recorded when the `try` block raised. -/
def errorResult (t : Task) (e : String) : TaskResult :=
  { step := t.step, agent := t.agent_name, task := t.task
    result := e, success := false, skipped := false }

/-- `graph.py:333-334`: the approval-keyword test of the response text
(`"approved" in result_lower or "approval granted" in result_lower`). -/
def isApprovalKeyword (result : String) : Bool :=
  strContains (strToLower result) "approved" ||
    strContains (strToLower result) "approval granted"

/-- `graph.py:336`: the denial/failure-keyword test of the response text
(`"denied" in result_lower or "rejected" in result_lower or "failed" in
result_lower or "error" in result_lower`). -/
def isDenialKeyword (result : String) : Bool :=
  strContains (strToLower result) "denied" || strContains (strToLower result) "rejected" ||
    strContains (strToLower result) "failed" || strContains (strToLower result) "error"

/-- `graph.py:330-339`: classification of an approval task's response text,
in the source's `if`/`elif` order; `none` when neither keyword occurs. -/
def classifyApproval (result : String) : Option ApprovalStatus :=
  if isApprovalKeyword result then some .approved
  else if isDenialKeyword result then some .denied
  else none

/-- `graph.py:341-353`: the decision appended for an approval task, linked to
the step of the immediately following task in the plan (`None` if none). -/
def mkApprovalDecision (plan : List Task) (task_idx : Nat) (t : Task)
    (status : ApprovalStatus) (result : String) : ApprovalDecision :=
  { task := t.task, status := status, reason := result
    linked_task_step := (plan[task_idx + 1]?).map Task.step }

/-- What one iteration of `execute_task_node` appends to the state. -/
structure StepEffect where
  result : TaskResult
  newDecisions : List ApprovalDecision
  invokedAgent : Bool
deriving DecidableEq

/-- The body of `execute_task_node` for the current task `t` at loop index
`task_idx` (branches in source order: denied-approval skip at lines 192-224;
the `try` block at 267-353 whose outcome is `env task_idx`; the `except`
handler at 355-364). -/
def stepEffect (env : Nat → InvokeOutcome) (plan : List Task)
    (decisions : List ApprovalDecision) (task_idx : Nat) (t : Task) : StepEffect :=
  match findDenied decisions t.step with
  | some d => ⟨skippedResult t d, [], false⟩
  | none =>
    match env task_idx with
    | .raises e => ⟨errorResult t e, [], true⟩
    | .response text success =>
      ⟨{ step := t.step, agent := t.agent_name, task := t.task
         result := text, success := success, skipped := false },
       if strContains (strToLower t.agent_name) "approval" then
         match classifyApproval text with
         | some st => [mkApprovalDecision plan task_idx t st text]
         | none => []
       else [],
       true⟩

/-- `execute_task_node` (graph.py:176-374): the safety check returns the state
unchanged when `task_idx >= len(task_plan)`; otherwise exactly one task result
is appended, the cursor advances by one, and an approval decision may be
appended. -/
def executeTaskNode (env : Nat → InvokeOutcome) (s : OrchState) : OrchState :=
  match s.task_plan[s.current_task_index]? with
  | none => s
  | some current_task =>
    let eff := stepEffect env s.task_plan s.approval_decisions s.current_task_index current_task
    { task_plan := s.task_plan
      current_task_index := s.current_task_index + 1
      task_results := s.task_results ++ [eff.result]
      approval_decisions := s.approval_decisions ++ eff.newDecisions
      invoked := s.invoked ++ if eff.invokedAgent then [s.current_task_index] else [] }

/-- The state entering the execute loop after `plan_tasks_node`
(graph.py:165-173 merged over the initial state of
`run_orchestrator_workflow`): cursor 0, no results, no decisions. -/
def initState (plan : List Task) : OrchState :=
  { task_plan := plan, current_task_index := 0, task_results := []
    approval_decisions := [], invoked := [] }

/-- `i` iterations of `execute_task_node` from the post-planning state. -/
def execIter (env : Nat → InvokeOutcome) (plan : List Task) : Nat → OrchState
  | 0 => initState plan
  | n + 1 => executeTaskNode env (execIter env plan n)

/-- The conditional loop around `execute_task_node`; fuel bounds the number of
checks of `should_continue_execution` (graph.py:417-437), which routes back to
`execute_task` exactly while `current_task_index < len(task_plan)`. -/
def runExecFuel (env : Nat → InvokeOutcome) : Nat → OrchState → OrchState
  | 0, s => s
  | n + 1, s =>
    if s.current_task_index < s.task_plan.length then runExecFuel env n (executeTaskNode env s)
    else s

/-- The execute phase of the compiled graph: `plan_tasks → execute_task`, then
`should_continue_execution` loops `execute_task` until the cursor reaches the
plan length (the fuel suffices because each productive iteration advances the
cursor by one, proved below). -/
def runExec (env : Nat → InvokeOutcome) (s : OrchState) : OrchState :=
  let s1 := executeTaskNode env s
  runExecFuel env (s1.task_plan.length - s1.current_task_index) s1

/-- In every branch the recorded result carries the current task's step. -/
theorem stepEffect_result_step (env : Nat → InvokeOutcome) (plan : List Task)
    (decisions : List ApprovalDecision) (i : Nat) (t : Task) :
    (stepEffect env plan decisions i t).result.step = t.step := by
  unfold stepEffect
  split
  · rfl
  · split <;> rfl

/-- The recorded result is marked skipped exactly when the denied-approval
lookup succeeded. -/
theorem stepEffect_skipped (env : Nat → InvokeOutcome) (plan : List Task)
    (decisions : List ApprovalDecision) (i : Nat) (t : Task) :
    (stepEffect env plan decisions i t).result.skipped =
      (findDenied decisions t.step).isSome := by
  unfold stepEffect
  split
  next d heq => rw [heq]; rfl
  next heq => rw [heq]; split <;> rfl

/-- The token exchange and agent call run exactly when the denied-approval
lookup failed. -/
theorem stepEffect_invoked (env : Nat → InvokeOutcome) (plan : List Task)
    (decisions : List ApprovalDecision) (i : Nat) (t : Task) :
    (stepEffect env plan decisions i t).invokedAgent =
      !(findDenied decisions t.step).isSome := by
  unfold stepEffect
  split
  next d heq => rw [heq]; rfl
  next heq => rw [heq]; split <;> rfl

/-- `execute_task_node` with the cursor past the plan is the safety-check
no-op. -/
theorem executeTaskNode_none (env : Nat → InvokeOutcome) (s : OrchState)
    (h : s.task_plan[s.current_task_index]? = none) : executeTaskNode env s = s := by
  unfold executeTaskNode
  rw [h]

/-- `execute_task_node` on an in-range cursor: one result appended, cursor
advanced by one, decisions and the invocation log extended per `stepEffect`. -/
theorem executeTaskNode_some (env : Nat → InvokeOutcome) (s : OrchState) (t : Task)
    (h : s.task_plan[s.current_task_index]? = some t) :
    executeTaskNode env s =
      { task_plan := s.task_plan
        current_task_index := s.current_task_index + 1
        task_results := s.task_results ++
          [(stepEffect env s.task_plan s.approval_decisions s.current_task_index t).result]
        approval_decisions := s.approval_decisions ++
          (stepEffect env s.task_plan s.approval_decisions s.current_task_index t).newDecisions
        invoked := s.invoked ++
          if (stepEffect env s.task_plan s.approval_decisions s.current_task_index t).invokedAgent
          then [s.current_task_index] else [] } := by
  unfold executeTaskNode
  rw [h]

/-- Iterating the execute node preserves the plan and advances the cursor in
lock step with the iteration count. -/
theorem execIter_inv (env : Nat → InvokeOutcome) (plan : List Task) :
    ∀ i, i ≤ plan.length →
      (execIter env plan i).task_plan = plan ∧
        (execIter env plan i).current_task_index = i := by
  intro i
  induction i with
  | zero => intro _; exact ⟨rfl, rfl⟩
  | succ n ih =>
    intro h
    have hn := ih (Nat.le_of_succ_le h)
    have hlt : n < plan.length := Nat.lt_of_succ_le h
    have ht : (execIter env plan n).task_plan[(execIter env plan n).current_task_index]? =
        some plan[n] := by
      rw [hn.1, hn.2]
      exact List.getElem?_eq_getElem hlt
    show (executeTaskNode env (execIter env plan n)).task_plan = plan ∧
      (executeTaskNode env (execIter env plan n)).current_task_index = n + 1
    rw [executeTaskNode_some env _ _ ht]
    exact ⟨hn.1, by rw [hn.2]⟩

/-- One productive iteration, written against the outer plan and iteration
index. -/
theorem execIter_succ_eq (env : Nat → InvokeOutcome) (plan : List Task) (n : Nat) (t : Task)
    (hlt : n < plan.length) (ht : plan[n]? = some t) :
    execIter env plan (n + 1) =
      { task_plan := plan
        current_task_index := n + 1
        task_results := (execIter env plan n).task_results ++
          [(stepEffect env plan (execIter env plan n).approval_decisions n t).result]
        approval_decisions := (execIter env plan n).approval_decisions ++
          (stepEffect env plan (execIter env plan n).approval_decisions n t).newDecisions
        invoked := (execIter env plan n).invoked ++
          if (stepEffect env plan (execIter env plan n).approval_decisions n t).invokedAgent
          then [n] else [] } := by
  have hn := execIter_inv env plan n (Nat.le_of_lt hlt)
  have ht' : (execIter env plan n).task_plan[(execIter env plan n).current_task_index]? =
      some t := by
    rw [hn.1, hn.2]; exact ht
  show executeTaskNode env (execIter env plan n) = _
  rw [executeTaskNode_some env _ t ht', hn.1, hn.2]

/-- After `i` iterations the recorded steps are exactly the first `i` plan
steps, in plan order. -/
theorem execIter_results (env : Nat → InvokeOutcome) (plan : List Task) :
    ∀ i, i ≤ plan.length →
      (execIter env plan i).task_results.map TaskResult.step =
        (plan.take i).map Task.step := by
  intro i
  induction i with
  | zero => intro _; rfl
  | succ n ih =>
    intro h
    have hlt : n < plan.length := Nat.lt_of_succ_le h
    have ht : plan[n]? = some plan[n] := List.getElem?_eq_getElem hlt
    rw [execIter_succ_eq env plan n plan[n] hlt ht, List.take_succ, ht]
    simp only [List.map_append, List.map_cons, List.map_nil, Option.toList_some]
    rw [ih (Nat.le_of_succ_le h), stepEffect_result_step]

/-- After `i` iterations exactly `i` results have been recorded. -/
theorem execIter_results_length (env : Nat → InvokeOutcome) (plan : List Task)
    (i : Nat) (h : i ≤ plan.length) :
    (execIter env plan i).task_results.length = i := by
  have hmap := congrArg List.length (execIter_results env plan i h)
  simp only [List.length_map, List.length_take] at hmap
  omega

/-- The result recorded for iteration `n` is stable in all later states: it is
the `stepEffect` of the decisions available when step `n` ran. -/
theorem execIter_results_getElem (env : Nat → InvokeOutcome) (plan : List Task)
    (n : Nat) (t : Task) (hlt : n < plan.length) (ht : plan[n]? = some t) :
    ∀ j, n < j → j ≤ plan.length →
      (execIter env plan j).task_results[n]? =
        some (stepEffect env plan (execIter env plan n).approval_decisions n t).result := by
  intro j
  induction j with
  | zero => intro h; omega
  | succ m ih =>
    intro hnj hjlen
    rcases Nat.lt_or_ge n m with hm | hm
    · have hmlt : m < plan.length := by omega
      have hu : plan[m]? = some plan[m] := List.getElem?_eq_getElem hmlt
      rw [execIter_succ_eq env plan m plan[m] hmlt hu]
      have hlenm := execIter_results_length env plan m (by omega)
      rw [List.getElem?_append_left (by omega)]
      exact ih hm (by omega)
    · have hnm : n = m := by omega
      subst hnm
      rw [execIter_succ_eq env plan n t hlt ht]
      have hlenn := execIter_results_length env plan n (by omega)
      rw [List.getElem?_append_right (Nat.le_of_eq hlenn)]
      simp [hlenn]

/-- Every index in the invocation log was logged by an earlier iteration. -/
theorem execIter_invoked_lt (env : Nat → InvokeOutcome) (plan : List Task) :
    ∀ i, i ≤ plan.length → ∀ m ∈ (execIter env plan i).invoked, m < i := by
  intro i
  induction i with
  | zero => intro _ m hm; simp [execIter, initState] at hm
  | succ n ih =>
    intro h m hm
    have hlt : n < plan.length := Nat.lt_of_succ_le h
    have ht : plan[n]? = some plan[n] := List.getElem?_eq_getElem hlt
    rw [execIter_succ_eq env plan n plan[n] hlt ht] at hm
    rcases List.mem_append.mp hm with hm1 | hm2
    · exact Nat.lt_succ_of_lt (ih (Nat.le_of_succ_le h) m hm1)
    · split at hm2
      · rw [List.mem_singleton.mp hm2]; omega
      · simp at hm2

/-- Iteration `n` appears in the final invocation log exactly when its
`stepEffect` entered the `try` block (performed the exchange and agent call). -/
theorem execIter_invoked_getElem (env : Nat → InvokeOutcome) (plan : List Task)
    (n : Nat) (t : Task) (hlt : n < plan.length) (ht : plan[n]? = some t) :
    ∀ j, n < j → j ≤ plan.length →
      (n ∈ (execIter env plan j).invoked ↔
        (stepEffect env plan (execIter env plan n).approval_decisions n t).invokedAgent = true) := by
  intro j
  induction j with
  | zero => intro h; omega
  | succ m ih =>
    intro hnj hjlen
    rcases Nat.lt_or_ge n m with hm | hm
    · have hmlt : m < plan.length := by omega
      have hu : plan[m]? = some plan[m] := List.getElem?_eq_getElem hmlt
      rw [execIter_succ_eq env plan m plan[m] hmlt hu]
      rw [List.mem_append]
      constructor
      · intro hmem
        rcases hmem with hm1 | hm2
        · exact (ih hm (by omega)).mp hm1
        · exfalso
          split at hm2
          · rw [List.mem_singleton.mp hm2] at hm; omega
          · simp at hm2
      · intro hinv
        exact Or.inl ((ih hm (by omega)).mpr hinv)
    · have hnm : n = m := by omega
      subst hnm
      rw [execIter_succ_eq env plan n t hlt ht]
      rw [List.mem_append]
      have hnotin : n ∉ (execIter env plan n).invoked := fun hmem =>
        absurd (execIter_invoked_lt env plan n (by omega) n hmem) (by omega)
      constructor
      · intro hmem
        rcases hmem with hm1 | hm2
        · exact absurd hm1 hnotin
        · split at hm2
          next hcond => exact hcond
          next => simp at hm2
      · intro hinv
        refine Or.inr ?_
        rw [if_pos hinv]
        exact List.mem_singleton.mpr rfl

/-- Running the conditional loop with fuel `plan.length - i` from the state
after `i` iterations reaches the state after `plan.length` iterations: each
productive iteration advances the cursor by exactly one, and the loop's routing
condition fails exactly at `plan.length`. -/
theorem runExecFuel_execIter (env : Nat → InvokeOutcome) (plan : List Task) :
    ∀ k i, i + k = plan.length →
      runExecFuel env k (execIter env plan i) = execIter env plan plan.length := by
  intro k
  induction k with
  | zero =>
    intro i h
    have hi : i = plan.length := by omega
    subst hi
    rfl
  | succ m ih =>
    intro i h
    have hlt : i < plan.length := by omega
    have hinv := execIter_inv env plan i (Nat.le_of_lt hlt)
    show (if (execIter env plan i).current_task_index < (execIter env plan i).task_plan.length
      then runExecFuel env m (executeTaskNode env (execIter env plan i))
      else execIter env plan i) = _
    rw [if_pos (by rw [hinv.1, hinv.2]; exact hlt)]
    exact ih (i + 1) (by omega)

/-- The execute phase of the graph from the post-planning state runs every
step exactly once: it equals `plan.length` iterations of `execute_task_node`. -/
theorem runExec_eq (env : Nat → InvokeOutcome) (plan : List Task) :
    runExec env (initState plan) = execIter env plan plan.length := by
  by_cases hp : plan.length = 0
  · have hnil : plan = [] := List.length_eq_zero.mp hp
    subst hnil
    rfl
  · have h1 : 1 ≤ plan.length := by omega
    have hinv := execIter_inv env plan 1 h1
    show runExecFuel env
      ((executeTaskNode env (initState plan)).task_plan.length -
        (executeTaskNode env (initState plan)).current_task_index)
      (executeTaskNode env (initState plan)) = _
    have e1 : executeTaskNode env (initState plan) = execIter env plan 1 := rfl
    rw [e1, hinv.1, hinv.2]
    exact runExecFuel_execIter env plan (plan.length - 1) 1 (by omega)

/-- C1: for every workflow run and every step of the plan, the recorded
`TaskResult` is `skipped` if and only if, when that step ran, the decisions
recorded by the earlier steps of the same run (the execute loop appends
decisions only for already-executed steps, so
`(execIter env plan n).approval_decisions` is exactly what steps `0..n-1`
recorded) contain an `ApprovalDecision` with status `denied` whose
`linked_task_step` equals that step's index; and the step is skipped exactly
when its iteration performed no token exchange and no agent invocation. -/
theorem c1_skipped_iff_denied_approval (env : Nat → InvokeOutcome) (plan : List Task)
    (n : Nat) (t : Task) (ht : plan[n]? = some t) :
    ∃ r, (runExec env (initState plan)).task_results[n]? = some r ∧
      (r.skipped = true ↔
        ∃ d ∈ (execIter env plan n).approval_decisions,
          d.status = ApprovalStatus.denied ∧ d.linked_task_step = some t.step) ∧
      (r.skipped = true ↔ n ∉ (runExec env (initState plan)).invoked) := by
  have hlt : n < plan.length := by
    rcases List.getElem?_eq_some.mp ht with ⟨h, _⟩
    exact h
  rw [runExec_eq]
  refine ⟨(stepEffect env plan (execIter env plan n).approval_decisions n t).result,
    execIter_results_getElem env plan n t hlt ht plan.length hlt (Nat.le_refl _), ?_, ?_⟩
  · rw [stepEffect_skipped]
    unfold findDenied
    simp only [List.find?_isSome, Bool.and_eq_true, decide_eq_true_eq]
    constructor
    · rintro ⟨d, hd, h1, h2⟩
      exact ⟨d, hd, h2, h1⟩
    · rintro ⟨d, hd, h1, h2⟩
      exact ⟨d, hd, h2, h1⟩
  · have hmem := execIter_invoked_getElem env plan n t hlt ht plan.length hlt (Nat.le_refl _)
    rw [stepEffect_invoked] at hmem
    rw [stepEffect_skipped]
    cases hb : (findDenied (execIter env plan n).approval_decisions t.step).isSome
    · simp [hb] at hmem ⊢
      exact hmem
    · simp [hb] at hmem ⊢
      exact hmem

/-- C2: a step whose token exchange or agent invocation raises gets a
`TaskResult` with error status (`success = false`, not skipped) carrying the
error text as its result, and the run still executes every step and reaches
AGGREGATE (final cursor equals the plan length with one result per step). -/
theorem c2_step_failure_is_isolated (env : Nat → InvokeOutcome) (plan : List Task)
    (n : Nat) (t : Task) (e : String) (ht : plan[n]? = some t)
    (henv : env n = .raises e)
    (hnd : findDenied (execIter env plan n).approval_decisions t.step = none) :
    (runExec env (initState plan)).task_results[n]? =
      some { step := t.step, agent := t.agent_name, task := t.task
             result := e, success := false, skipped := false } ∧
    (runExec env (initState plan)).current_task_index = plan.length ∧
    (runExec env (initState plan)).task_results.length = plan.length := by
  have hlt : n < plan.length := by
    rcases List.getElem?_eq_some.mp ht with ⟨h, _⟩
    exact h
  rw [runExec_eq]
  refine ⟨?_, (execIter_inv env plan plan.length (Nat.le_refl _)).2,
    execIter_results_length env plan plan.length (Nat.le_refl _)⟩
  rw [execIter_results_getElem env plan n t hlt ht plan.length hlt (Nat.le_refl _)]
  unfold stepEffect
  rw [hnd, henv]
  rfl

/-- C3: after the run reaches AGGREGATE, the recorded results carry exactly
the plan's steps once each in plan order (so in strictly ascending step order
whenever the plan's steps ascend), each productive EXECUTE iteration appends
exactly one result for the current step and advances the cursor by exactly
one, and the loop exits with the cursor equal to the plan length. -/
theorem c3_one_result_per_step_in_order (env : Nat → InvokeOutcome) (plan : List Task)
    (hmono : List.Chain' (· < ·) (plan.map Task.step)) :
    (runExec env (initState plan)).task_results.map TaskResult.step = plan.map Task.step ∧
    (runExec env (initState plan)).task_plan = plan ∧
    (runExec env (initState plan)).current_task_index = plan.length ∧
    List.Chain' (· < ·) ((runExec env (initState plan)).task_results.map TaskResult.step) ∧
    ∀ i, (hi : i < plan.length) →
      (execIter env plan (i + 1)).task_results =
        (execIter env plan i).task_results ++
          [(stepEffect env plan (execIter env plan i).approval_decisions i plan[i]).result] ∧
      (execIter env plan (i + 1)).current_task_index =
        (execIter env plan i).current_task_index + 1 := by
  have hmap : (runExec env (initState plan)).task_results.map TaskResult.step =
      plan.map Task.step := by
    rw [runExec_eq, execIter_results env plan plan.length (Nat.le_refl _), List.take_length]
  refine ⟨hmap, ?_, ?_, ?_, ?_⟩
  · rw [runExec_eq]
    exact (execIter_inv env plan plan.length (Nat.le_refl _)).1
  · rw [runExec_eq]
    exact (execIter_inv env plan plan.length (Nat.le_refl _)).2
  · rw [hmap]
    exact hmono
  · intro i hi
    have ht : plan[i]? = some plan[i] := List.getElem?_eq_getElem hi
    rw [execIter_succ_eq env plan i plan[i] hi ht]
    exact ⟨rfl, by rw [(execIter_inv env plan i (Nat.le_of_lt hi)).2]⟩

/-- C4: when the current step's agent name contains "approval" and its
invocation returned a response text, the `if`/`elif` classification of
`execute_task_node` records: an `approved` decision linked to the immediately
following plan step when the text contains an approval keyword; a `denied`
decision (same linkage) when it contains a denial/failure keyword but no
approval keyword; and no decision at all when it contains neither.
(`linked_task_step` is the following task's step, `none` when the approval
task is last.) -/
theorem c4_approval_response_classification (env : Nat → InvokeOutcome) (s : OrchState)
    (t : Task) (text : String) (success : Bool)
    (ht : s.task_plan[s.current_task_index]? = some t)
    (happ : strContains (strToLower t.agent_name) "approval" = true)
    (hnd : findDenied s.approval_decisions t.step = none)
    (henv : env s.current_task_index = .response text success) :
    (isApprovalKeyword text = true →
      (executeTaskNode env s).approval_decisions = s.approval_decisions ++
        [{ task := t.task, status := ApprovalStatus.approved, reason := text
           linked_task_step := (s.task_plan[s.current_task_index + 1]?).map Task.step }]) ∧
    (isApprovalKeyword text = false → isDenialKeyword text = true →
      (executeTaskNode env s).approval_decisions = s.approval_decisions ++
        [{ task := t.task, status := ApprovalStatus.denied, reason := text
           linked_task_step := (s.task_plan[s.current_task_index + 1]?).map Task.step }]) ∧
    (isApprovalKeyword text = false → isDenialKeyword text = false →
      (executeTaskNode env s).approval_decisions = s.approval_decisions) := by
  rw [executeTaskNode_some env s t ht]
  refine ⟨?_, ?_, ?_⟩
  · intro h1
    simp [stepEffect, hnd, henv, happ, classifyApproval, h1, mkApprovalDecision]
  · intro h1 h2
    simp [stepEffect, hnd, henv, happ, classifyApproval, h1, h2, mkApprovalDecision]
  · intro h1 h2
    simp [stepEffect, hnd, henv, happ, classifyApproval, h1, h2]

/-- The approval step of the concrete plan `planA`. -/
def taskApprove : Task :=
  { step := 1, agent_name := "Approval Agent", agent_url := "http://localhost:8003"
    task := "Approve request to grant HR privileges to Bob" }

/-- The gated HR step of the concrete plan `planA`. -/
def taskGrant : Task :=
  { step := 2, agent_name := "HR Agent", agent_url := "http://localhost:8001"
    task := "Grant HR privileges to Bob" }

/-- Concrete two-step plan: an approval step gating an HR step. -/
def planA : List Task := [taskApprove, taskGrant]

/-- Environment in which the approval step's response denies the request. -/
def envA : Nat → InvokeOutcome := fun i =>
  if i = 0 then .response "Request denied by manager" true
  else .response "HR privileges granted" true

/-- Witness for C1 at the gated step of `planA` under `envA`. -/
theorem c1_witness :
    planA[1]? = some taskGrant ∧
    (∃ r, (runExec envA (initState planA)).task_results[1]? = some r ∧
      (r.skipped = true ↔
        ∃ d ∈ (execIter envA planA 1).approval_decisions,
          d.status = ApprovalStatus.denied ∧
            d.linked_task_step = some taskGrant.step) ∧
      (r.skipped = true ↔ 1 ∉ (runExec envA (initState planA)).invoked)) :=
  ⟨rfl, c1_skipped_iff_denied_approval envA planA 1 taskGrant rfl⟩

/-- The first step of the concrete plan `planB`. -/
def taskCreate : Task :=
  { step := 1, agent_name := "HR Agent", agent_url := "http://localhost:8001"
    task := "Create employee record for Dave" }

/-- The second step of the concrete plan `planB`. -/
def taskProvision : Task :=
  { step := 2, agent_name := "IT Agent", agent_url := "http://localhost:8002"
    task := "Provision VPN access for Dave" }

/-- Concrete two-step plan with no approval steps. -/
def planB : List Task := [taskCreate, taskProvision]

/-- Environment in which the first step's token exchange raises. -/
def envB : Nat → InvokeOutcome := fun i =>
  if i = 0 then .raises "ExchangeError: grant rejected"
  else .response "VPN provisioned" true

/-- Witness for C2: the first step of `planB` fails under `envB`, is recorded
as an error result, and the run still completes both steps. -/
theorem c2_witness :
    planB[0]? = some taskCreate ∧
    envB 0 = .raises "ExchangeError: grant rejected" ∧
    findDenied (execIter envB planB 0).approval_decisions taskCreate.step = none ∧
    ((runExec envB (initState planB)).task_results[0]? =
      some { step := taskCreate.step, agent := taskCreate.agent_name
             task := taskCreate.task, result := "ExchangeError: grant rejected"
             success := false, skipped := false } ∧
     (runExec envB (initState planB)).current_task_index = planB.length ∧
     (runExec envB (initState planB)).task_results.length = planB.length) :=
  ⟨rfl, rfl, rfl, c2_step_failure_is_isolated envB planB 0 taskCreate
    "ExchangeError: grant rejected" rfl rfl rfl⟩

/-- Witness for C3 on `planA` under `envA`. -/
theorem c3_witness :
    List.Chain' (· < ·) (planA.map Task.step) ∧
    ((runExec envA (initState planA)).task_results.map TaskResult.step =
        planA.map Task.step ∧
      (runExec envA (initState planA)).task_plan = planA ∧
      (runExec envA (initState planA)).current_task_index = planA.length ∧
      List.Chain' (· < ·)
        ((runExec envA (initState planA)).task_results.map TaskResult.step) ∧
      ∀ i, (hi : i < planA.length) →
        (execIter envA planA (i + 1)).task_results =
          (execIter envA planA i).task_results ++
            [(stepEffect envA planA (execIter envA planA i).approval_decisions i
              planA[i]).result] ∧
        (execIter envA planA (i + 1)).current_task_index =
          (execIter envA planA i).current_task_index + 1) :=
  ⟨by simp [planA, taskApprove, taskGrant, List.chain'_cons, List.chain'_singleton],
    c3_one_result_per_step_in_order envA planA
      (by simp [planA, taskApprove, taskGrant, List.chain'_cons, List.chain'_singleton])⟩

/-- Environment whose response text approves. -/
def envC : Nat → InvokeOutcome := fun _ => .response "Request approved by manager" true

/-- Witness for C4 at the approval step of `planA` when the response approves. -/
theorem c4_witness :
    (initState planA).task_plan[(initState planA).current_task_index]? =
      some taskApprove ∧
    strContains (strToLower "Approval Agent") "approval" = true ∧
    isApprovalKeyword "Request approved by manager" = true ∧
    ((isApprovalKeyword "Request approved by manager" = true →
      (executeTaskNode envC (initState planA)).approval_decisions =
        (initState planA).approval_decisions ++
          [{ task := "Approve request to grant HR privileges to Bob"
             status := ApprovalStatus.approved, reason := "Request approved by manager"
             linked_task_step :=
               ((initState planA).task_plan[(initState planA).current_task_index + 1]?).map
                 Task.step }]) ∧
    (isApprovalKeyword "Request approved by manager" = false →
        isDenialKeyword "Request approved by manager" = true →
      (executeTaskNode envC (initState planA)).approval_decisions =
        (initState planA).approval_decisions ++
          [{ task := "Approve request to grant HR privileges to Bob"
             status := ApprovalStatus.denied, reason := "Request approved by manager"
             linked_task_step :=
               ((initState planA).task_plan[(initState planA).current_task_index + 1]?).map
                 Task.step }]) ∧
    (isApprovalKeyword "Request approved by manager" = false →
        isDenialKeyword "Request approved by manager" = false →
      (executeTaskNode envC (initState planA)).approval_decisions =
        (initState planA).approval_decisions)) :=
  ⟨rfl, by decide, by decide,
    c4_approval_response_classification envC (initState planA) taskApprove
      "Request approved by manager" true rfl (by decide) rfl rfl⟩

end Orch

namespace AgentWf

/-- One task dict produced by `decompose_to_tasks` / `_fallback_decompose` in
`agents/orchestrator/agent.py` (`{step, agent_url, agent_name, task}`). -/
structure WfTask where
  step : Nat
  agent_url : String
  agent_name : String
  task : String
deriving DecidableEq

/-- An element of the list `decompose_to_tasks` returns: either the sentinel
error dict `[{"error": ...}]` or a task dict. -/
inductive PlanEntry
  | err (msg : String)
  | task (t : WfTask)
deriving DecidableEq

/-- `agent.py:494-499`: the keyword map of `_fallback_decompose`
(`agent_key, (keywords, url)`), in Python dict insertion order. -/
def keywordMap : List (String × List String × String) :=
  [("hr", (["employee", "profile", "hr", "hire", "onboard", "new hire", "create"],
     "http://localhost:8001")),
   ("it", (["vpn", "github", "aws", "provision", "access", "account", "laptop", "email"],
     "http://localhost:8002")),
   ("approval", (["approve", "approval", "permission", "request", "manager"],
     "http://localhost:8003")),
   ("booking", (["schedule", "task", "booking", "book", "orientation", "equipment", "pickup"],
     "http://localhost:8004"))]

/-- `agent.py:488-523` `_fallback_decompose`: keyword-to-agent heuristic over
the lower-cased query; if no keyword matched, one task per discovered agent.
`discovered` models `self._discovered_agents` as `(url, name)` pairs. -/
def fallback_decompose (discovered : List (String × String)) (query : String) : List WfTask :=
  let query_lower := Orch.strToLower query
  let matched := keywordMap.foldl
    (fun (acc : List WfTask × Nat) entry =>
      if entry.2.1.any (fun kw => Orch.strContains query_lower kw) then
        (acc.1 ++ [{ step := acc.2, agent_url := entry.2.2
                     agent_name := ((discovered.lookup entry.2.2).getD (entry.1 ++ " Agent"))
                     task := query }],
         acc.2 + 1)
      else acc)
    ([], 1)
  if matched.1.isEmpty then
    (discovered.foldl
      (fun (acc : List WfTask × Nat) p =>
        (acc.1 ++ [{ step := acc.2, agent_url := p.1, agent_name := p.2, task := query }],
         acc.2 + 1))
      ([], 1)).1
  else matched.1

/-- `agent.py:397-486` `decompose_to_tasks`: with no discovered agents it
returns the sentinel `[{"error": "No agents discovered"}]`; a successful
planner response returns its task list verbatim (even when empty); a planner
failure (no API key, HTTP error, parse error) falls back to
`_fallback_decompose`. The external LLM planner is the parameter `planner`
(`none` = failure). -/
def decompose_to_tasks (discovered : List (String × String))
    (planner : Option (List WfTask)) (query : String) : List PlanEntry :=
  if discovered.isEmpty then [.err "No agents discovered"]
  else
    match planner with
    | some tasks => tasks.map .task
    | none => (fallback_decompose discovered query).map .task

/-- One entry of `results` built by `process_workflow` (`agent.py:563-590`). -/
structure WfStepResult where
  step : Nat
  agent : String
  task : String
  status : String
  response : String
deriving DecidableEq

/-- The dict `process_workflow` returns, with a ghost count of `call_agent`
invocations (the agent-invocation transport). -/
structure WfOutput where
  status : String
  error : Option String
  results : List WfStepResult
  transport_calls : Nat
deriving DecidableEq

/-- The `for task in tasks` loop of `process_workflow` (`agent.py:552-590`):
each iteration calls `call_agent` once; success appends a `status="success"`
result with the parsed response, an exception appends `status="error"` with
the error text. `transport i` is the outcome of the i-th call. -/
def runSteps (transport : Nat → Except String String) (tasks : List WfTask) :
    List WfStepResult :=
  tasks.enum.map fun p =>
    match transport p.1 with
    | .ok text =>
      { step := p.2.step, agent := p.2.agent_name, task := p.2.task
        status := "success", response := text }
    | .error e =>
      { step := p.2.step, agent := p.2.agent_name, task := p.2.task
        status := "error", response := e }

/-- `agent.py:525-601` `process_workflow`: decompose, return early on an empty
task list (`"Could not determine any tasks for the request."`) or on the
sentinel error list, otherwise execute every task sequentially. -/
def process_workflow (discovered : List (String × String))
    (planner : Option (List WfTask)) (transport : Nat → Except String String)
    (query : String) : WfOutput :=
  let entries := decompose_to_tasks discovered planner query
  if entries.isEmpty then
    { status := "error", error := some "Could not determine any tasks for the request."
      results := [], transport_calls := 0 }
  else
    match entries with
    | [.err msg] =>
      { status := "error", error := some msg, results := [], transport_calls := 0 }
    | _ =>
      let tasks := entries.filterMap fun e =>
        match e with
        | .task t => some t
        | .err _ => none
      { status := "success", error := none
        results := runSteps transport tasks, transport_calls := tasks.length }

end AgentWf

namespace BrokerM

/-- `ActorToken` of `asgardeo.py:42-46`; `expires_at` as epoch seconds. -/
structure ActorTokenM where
  token : String
  actor_id : String
  expires_at : Int
deriving DecidableEq

/-- Python truthiness of an optional string (`if actor_token:`). -/
def optStrTruthy : Option String → Bool
  | none => false
  | some s => !s.isEmpty

/-- The form-encoded body that `perform_token_exchange`
(`asgardeo.py:582-597`) posts to the token endpoint. -/
structure ExchangeRequestData where
  grant_type : String
  subject_token : String
  subject_token_type : String
  actor_token : Option String
  actor_token_type : Option String
  audience : Option String
  scope : Option String
deriving DecidableEq

/-- `asgardeo.py:582-597`: the request dict of `perform_token_exchange`.
Optional keys are present exactly under the source's truthiness checks;
`scope` is the space-join of `target_scopes`. -/
def buildExchangeRequest (subject_token : String) (actor_token : Option String)
    (target_audience : Option String) (target_scopes : Option (List String)) :
    ExchangeRequestData :=
  { grant_type := "urn:ietf:params:oauth:grant-type:token-exchange"
    subject_token := subject_token
    subject_token_type := "urn:ietf:params:oauth:token-type:access_token"
    actor_token := if optStrTruthy actor_token then actor_token else none
    actor_token_type :=
      if optStrTruthy actor_token then some "urn:ietf:params:oauth:token-type:access_token"
      else none
    audience := if optStrTruthy target_audience then target_audience else none
    scope :=
      match target_scopes with
      | some l => if l.isEmpty then none else some (String.intercalate " " l)
      | none => none }

/-- The settings fields `exchange_token_for_agent` and `_log_audit` read. -/
structure Settings where
  token_exchanger_client_id : String
  token_exchanger_client_secret : String
  orchestrator_agent_id : String
deriving DecidableEq

/-- One agent's entry in the `agents` section of the YAML config. -/
structure AgentConfig where
  agent_id : Option String
  agent_secret : Option String
deriving DecidableEq

/-- `AuditEntry` of `token_broker.py:40-49`; `timestamp` as epoch seconds. -/
structure AuditEntryM where
  timestamp : Int
  operation : String
  user_sub : String
  actor_sub : String
  target_service : String
  scopes : List String
  success : Bool
  error : Option String
deriving DecidableEq

/-- `token_broker.py:167-245` `exchange_token_for_agent`, up to and including
the request that `perform_token_exchange` sends: config lookup of
`agent_key`, the `agent_id` and token-exchanger-credential checks, actor-token
fetch for the agent (`fetchActor`, the external 3-step flow; may raise), then
the RFC 8693 request with the agent's actor token, `target_audience=None`
(the source passes `None` regardless of the caller's `target_audience`
argument) and the caller's `target_scopes`. -/
def exchangeRequestForAgent (settings : Settings)
    (agents_config : List (String × AgentConfig))
    (fetchActor : String → String → String → Except String ActorTokenM)
    (source_token agent_key target_audience : String) (target_scopes : List String) :
    Except String ExchangeRequestData :=
  match agents_config.lookup agent_key with
  | none => .error ("Unknown agent: " ++ agent_key)
  | some agent_config =>
    if (agent_config.agent_id.getD "").isEmpty then
      .error ("Missing agent_id for agent " ++ agent_key)
    else if settings.token_exchanger_client_id.isEmpty ||
        settings.token_exchanger_client_secret.isEmpty then
      .error "TOKEN_EXCHANGER_CLIENT_ID and TOKEN_EXCHANGER_CLIENT_SECRET are required"
    else
      match fetchActor settings.token_exchanger_client_id
          settings.token_exchanger_client_secret (agent_config.agent_id.getD "") with
      | .error e => .error e
      | .ok agent_actor_token =>
        .ok (buildExchangeRequest source_token (some agent_actor_token.token)
          none (some target_scopes))

/-- `exchange_token_for_agent` end to end, together with the audit log it
threads: the identity provider's token endpoint is `idp` (may reject); on
success the broker appends the `_log_audit` entry of `token_broker.py:251-256`
(`operation="token_exchange"`, `user_sub="unknown"`, `actor_sub` the
orchestrator agent id, `target_service=agent_key`, `scopes=target_scopes`,
`success=True`); every raising path leaves the audit log untouched. -/
def exchangeTokenForAgentAudit (settings : Settings)
    (agents_config : List (String × AgentConfig))
    (fetchActor : String → String → String → Except String ActorTokenM)
    (idp : ExchangeRequestData → Except String String) (now : Int)
    (audit_log : List AuditEntryM)
    (source_token agent_key target_audience : String) (target_scopes : List String) :
    Except String String × List AuditEntryM :=
  match exchangeRequestForAgent settings agents_config fetchActor
      source_token agent_key target_audience target_scopes with
  | .error e => (.error e, audit_log)
  | .ok req =>
    match idp req with
    | .error e => (.error e, audit_log)
    | .ok new_token =>
      (.ok new_token,
       audit_log ++
         [{ timestamp := now, operation := "token_exchange", user_sub := "unknown"
            actor_sub := settings.orchestrator_agent_id, target_service := agent_key
            scopes := target_scopes, success := true, error := none }])

end BrokerM

namespace ActorCache

open BrokerM (ActorTokenM)

/-- Result of one call to `AsgardeoClient.get_actor_token`
(`asgardeo.py:178-191`): the token returned, the cache afterwards, and whether
a fresh 3-step acquisition (`_fetch_agent_actor_token`) was performed. -/
structure GetActorTokenResult where
  result : ActorTokenM
  new_cached : Option ActorTokenM
  acquired : Bool
deriving DecidableEq

/-- `asgardeo.py:178-191` `get_actor_token`: return the cached token whenever
`self._actor_token and self._actor_token.expires_at > datetime.utcnow()`;
otherwise run the acquisition (whose result is `fetched`) and cache it.
There is no safety margin in the comparison. -/
def get_actor_token (now : Int) (cached : Option ActorTokenM) (fetched : ActorTokenM) :
    GetActorTokenResult :=
  match cached with
  | some t => if now < t.expires_at then ⟨t, some t, false⟩ else ⟨fetched, some fetched, true⟩
  | none => ⟨fetched, some fetched, true⟩

/-- Progress of one async caller of `get_actor_token`: `ready` = about to run
the cache check; `fetching i` = suspended inside the awaited acquisition that
was the `i`-th started overall; `finished` = returned. -/
inductive TaskPh
  | ready
  | fetching (idx : Nat)
  | finished (tok : ActorTokenM)
deriving DecidableEq

/-- Shared state plus the phases of two concurrent callers. `acquisitions`
counts started 3-step acquisition sequences against the identity backend. -/
structure ConcRun where
  cached : Option ActorTokenM
  acquisitions : Nat
  task1 : TaskPh
  task2 : TaskPh
deriving DecidableEq

/-- One cooperative step of a caller. From `ready`, the cache check and (on a
miss) the start of the awaited fetch happen atomically — the source has no
suspension point between them; the write of `self._actor_token` happens only
when the awaited fetch completes. `fetchRes i` is the token produced by the
`i`-th started acquisition. -/
def phaseStep (now : Int) (fetchRes : Nat → ActorTokenM) (cached : Option ActorTokenM)
    (acq : Nat) (ph : TaskPh) : Option ActorTokenM × Nat × TaskPh :=
  match ph with
  | .ready =>
    match cached with
    | some t =>
      if now < t.expires_at then (cached, acq, .finished t)
      else (cached, acq + 1, .fetching acq)
    | none => (cached, acq + 1, .fetching acq)
  | .fetching i => (some (fetchRes i), acq, .finished (fetchRes i))
  | .finished t => (cached, acq, .finished t)

/-- Run the scheduled caller (`true` = first, `false` = second) one step. -/
def schedStep (now : Int) (fetchRes : Nat → ActorTokenM) (r : ConcRun) (b : Bool) : ConcRun :=
  if b then
    let o := phaseStep now fetchRes r.cached r.acquisitions r.task1
    { r with cached := o.1, acquisitions := o.2.1, task1 := o.2.2 }
  else
    let o := phaseStep now fetchRes r.cached r.acquisitions r.task2
    { r with cached := o.1, acquisitions := o.2.1, task2 := o.2.2 }

/-- Execute a cooperative schedule of the two concurrent callers. -/
def runSched (now : Int) (fetchRes : Nat → ActorTokenM) (sched : List Bool) (r : ConcRun) :
    ConcRun :=
  sched.foldl (schedStep now fetchRes) r

/-- Both callers start with an empty cache. -/
def initRun : ConcRun := { cached := none, acquisitions := 0, task1 := .ready, task2 := .ready }

end ActorCache

namespace AgentWf

/-- The claim "run_workflow returns a FAILED result carrying the message
'no tasks determined'" fails on the code: with a discovered agent and a
planner that successfully yields an empty step list (so the keyword fallback
is never consulted and yields nothing), `process_workflow` returns an error
result whose message is "Could not determine any tasks for the request.",
not "no tasks determined"; the transport is indeed never called. -/
theorem c5_counterexample_message_differs :
    (process_workflow [("http://localhost:8001", "HR Agent")] (some [])
      (fun _ => .ok "done") "reboot the mainframe").status = "error" ∧
    (process_workflow [("http://localhost:8001", "HR Agent")] (some [])
      (fun _ => .ok "done") "reboot the mainframe").error =
        some "Could not determine any tasks for the request." ∧
    (process_workflow [("http://localhost:8001", "HR Agent")] (some [])
      (fun _ => .ok "done") "reboot the mainframe").error ≠
        some "no tasks determined" ∧
    (process_workflow [("http://localhost:8001", "HR Agent")] (some [])
      (fun _ => .ok "done") "reboot the mainframe").transport_calls = 0 := by
  refine ⟨rfl, rfl, ?_, rfl⟩
  decide

/-- C5 (amended): when the effective task list is empty the workflow fails
without ever calling the agent-invocation transport; the failure message is
"Could not determine any tasks for the request." when the planner yielded an
empty list with agents discovered, and "No agents discovered" when no agents
were discovered (the only situation in which the keyword fallback could yield
nothing). -/
theorem c5_empty_plan_fails_without_transport (discovered : List (String × String))
    (planner : Option (List WfTask)) (transport : Nat → Except String String)
    (query : String) :
    (discovered ≠ [] → planner = some [] →
      process_workflow discovered planner transport query =
        { status := "error", error := some "Could not determine any tasks for the request."
          results := [], transport_calls := 0 }) ∧
    (discovered = [] →
      process_workflow discovered planner transport query =
        { status := "error", error := some "No agents discovered"
          results := [], transport_calls := 0 }) := by
  constructor
  · intro hd hp
    subst hp
    have hne : discovered.isEmpty = false := by
      cases discovered with
      | nil => exact absurd rfl hd
      | cons a l => rfl
    simp [process_workflow, decompose_to_tasks, hne]
  · intro hd
    subst hd
    rfl

/-- Witness for the amended C5 at a concrete discovered agent, empty planner
output and a transport stub. -/
theorem c5_witness :
    ([("http://localhost:8001", "HR Agent")] : List (String × String)) ≠ [] ∧
    process_workflow [("http://localhost:8001", "HR Agent")] (some [])
        (fun _ => .ok "done") "hello" =
      { status := "error", error := some "Could not determine any tasks for the request."
        results := [], transport_calls := 0 } :=
  ⟨by decide,
    (c5_empty_plan_fails_without_transport [("http://localhost:8001", "HR Agent")]
      (some []) (fun _ => .ok "done") "hello").1 (by decide) rfl⟩

end AgentWf

namespace BrokerM

/-- C6: whenever `exchange_token_for_agent` reaches the outgoing
token-exchange request, that request's `scope` parameter is exactly the
space-join of the caller-supplied `target_scopes` (omitted exactly when the
caller's list is empty, per the source's truthiness check) and its subject
token is the caller's source token — nothing on the path adds, removes or
rewrites a scope. -/
theorem c6_scopes_sent_verbatim (settings : Settings)
    (agents_config : List (String × AgentConfig))
    (fetchActor : String → String → String → Except String ActorTokenM)
    (source_token agent_key target_audience : String) (target_scopes : List String)
    (req : ExchangeRequestData)
    (h : exchangeRequestForAgent settings agents_config fetchActor source_token agent_key
      target_audience target_scopes = .ok req) :
    req.scope = (if target_scopes.isEmpty then none
      else some (String.intercalate " " target_scopes)) ∧
    req.subject_token = source_token := by
  unfold exchangeRequestForAgent at h
  split at h
  · exact Except.noConfusion h
  · split at h
    · exact Except.noConfusion h
    · split at h
      · exact Except.noConfusion h
      · split at h
        · exact Except.noConfusion h
        · injection h with h'
          subst h'
          exact ⟨rfl, rfl⟩

/-- Concrete broker settings for the witnesses. -/
def settings0 : Settings :=
  { token_exchanger_client_id := "texch-client-id"
    token_exchanger_client_secret := "texch-client-secret"
    orchestrator_agent_id := "orchestrator-agent-id" }

/-- Concrete agents config registering `hr_agent`. -/
def agents0 : List (String × AgentConfig) :=
  [("hr_agent", { agent_id := some "hr-agent-id", agent_secret := some "hr-agent-secret" })]

/-- Stub actor-token fetcher (the external 3-step flow) that succeeds. -/
def fa0 : String → String → String → Except String ActorTokenM :=
  fun _ _ _ => .ok { token := "agent-actor-token", actor_id := "hr-agent-id", expires_at := 9999 }

/-- Stub identity-provider token endpoint that accepts every exchange. -/
def idp0 : ExchangeRequestData → Except String String :=
  fun _ => .ok "exchanged-token"

/-- The request `exchangeRequestForAgent` produces for the two-scope witness. -/
def reqHR : ExchangeRequestData :=
  { grant_type := "urn:ietf:params:oauth:grant-type:token-exchange"
    subject_token := "subject-token"
    subject_token_type := "urn:ietf:params:oauth:token-type:access_token"
    actor_token := some "agent-actor-token"
    actor_token_type := some "urn:ietf:params:oauth:token-type:access_token"
    audience := none
    scope := some "hr:read hr:write" }

/-- Witness for C6 at a concrete registered agent and scope list. -/
theorem c6_witness :
    exchangeRequestForAgent settings0 agents0 fa0 "subject-token" "hr_agent" "hr-audience"
      ["hr:read", "hr:write"] = .ok reqHR ∧
    (reqHR.scope = (if (["hr:read", "hr:write"] : List String).isEmpty then none
      else some (String.intercalate " " ["hr:read", "hr:write"])) ∧
     reqHR.subject_token = "subject-token") :=
  ⟨rfl, c6_scopes_sent_verbatim settings0 agents0 fa0 "subject-token" "hr_agent"
    "hr-audience" ["hr:read", "hr:write"] reqHR rfl⟩

/-- C7 (amended): the broker writes an audit entry for an exchange operation
exactly when the operation succeeds; every raising path of
`exchange_token_for_agent` (unknown agent, missing agent id, missing
credentials, actor-token fetch failure, identity-provider rejection) returns
without appending anything to the audit log. -/
theorem c7_audit_appended_only_on_success (settings : Settings)
    (agents_config : List (String × AgentConfig))
    (fetchActor : String → String → String → Except String ActorTokenM)
    (idp : ExchangeRequestData → Except String String) (now : Int)
    (audit_log : List AuditEntryM)
    (source_token agent_key target_audience : String) (target_scopes : List String) :
    (∀ tok, (exchangeTokenForAgentAudit settings agents_config fetchActor idp now audit_log
        source_token agent_key target_audience target_scopes).1 = .ok tok →
      (exchangeTokenForAgentAudit settings agents_config fetchActor idp now audit_log
        source_token agent_key target_audience target_scopes).2 =
        audit_log ++
          [{ timestamp := now, operation := "token_exchange", user_sub := "unknown"
             actor_sub := settings.orchestrator_agent_id, target_service := agent_key
             scopes := target_scopes, success := true, error := none }]) ∧
    (∀ e, (exchangeTokenForAgentAudit settings agents_config fetchActor idp now audit_log
        source_token agent_key target_audience target_scopes).1 = .error e →
      (exchangeTokenForAgentAudit settings agents_config fetchActor idp now audit_log
        source_token agent_key target_audience target_scopes).2 = audit_log) := by
  unfold exchangeTokenForAgentAudit
  split
  · constructor
    · intro tok htok
      exact Except.noConfusion htok
    · intro e he
      rfl
  · split
    · constructor
      · intro tok htok
        exact Except.noConfusion htok
      · intro e he
        rfl
    · constructor
      · intro tok htok
        rfl
      · intro e he
        exact Except.noConfusion he

/-- The claim "every failing delegation/exchange operation appends an Audit
Log entry; no error path completes without an audit record" fails on the
code: a failing exchange (unknown `agent_key`) raises and leaves the audit
log empty — `_log_audit` is reached only after a successful exchange. -/
theorem c7_counterexample_error_path_unaudited :
    (exchangeTokenForAgentAudit settings0 [] fa0 idp0 0 [] "subject-token" "hr_agent"
      "hr-audience" ["hr:read"]).1 = .error "Unknown agent: hr_agent" ∧
    (exchangeTokenForAgentAudit settings0 [] fa0 idp0 0 [] "subject-token" "hr_agent"
      "hr-audience" ["hr:read"]).2 = ([] : List AuditEntryM) :=
  ⟨rfl, rfl⟩

/-- Witness for the amended C7: a successful exchange appends exactly the
`token_exchange` audit entry. -/
theorem c7_witness :
    (exchangeTokenForAgentAudit settings0 agents0 fa0 idp0 5 [] "subject-token" "hr_agent"
      "hr-audience" ["hr:read"]).1 = .ok "exchanged-token" ∧
    (exchangeTokenForAgentAudit settings0 agents0 fa0 idp0 5 [] "subject-token" "hr_agent"
      "hr-audience" ["hr:read"]).2 =
      [{ timestamp := 5, operation := "token_exchange", user_sub := "unknown"
         actor_sub := "orchestrator-agent-id", target_service := "hr_agent"
         scopes := ["hr:read"], success := true, error := none }] :=
  ⟨rfl,
    (c7_audit_appended_only_on_success settings0 agents0 fa0 idp0 5 [] "subject-token"
      "hr_agent" "hr-audience" ["hr:read"]).1 "exchanged-token" rfl⟩

/-- C10: the token-exchange request `exchange_token_for_agent` sends carries
no audience parameter, and both the request and the broker's entire observable
outcome (result token and audit log) are identical for any two values of the
caller's `target_audience` argument — the argument is discarded. -/
theorem c10_audience_discarded (settings : Settings)
    (agents_config : List (String × AgentConfig))
    (fetchActor : String → String → String → Except String ActorTokenM)
    (idp : ExchangeRequestData → Except String String) (now : Int)
    (audit_log : List AuditEntryM)
    (source_token agent_key : String) (target_scopes : List String) (a1 a2 : String) :
    exchangeRequestForAgent settings agents_config fetchActor source_token agent_key a1
        target_scopes =
      exchangeRequestForAgent settings agents_config fetchActor source_token agent_key a2
        target_scopes ∧
    exchangeTokenForAgentAudit settings agents_config fetchActor idp now audit_log
        source_token agent_key a1 target_scopes =
      exchangeTokenForAgentAudit settings agents_config fetchActor idp now audit_log
        source_token agent_key a2 target_scopes ∧
    ∀ req, exchangeRequestForAgent settings agents_config fetchActor source_token agent_key
        a1 target_scopes = .ok req → req.audience = none := by
  refine ⟨rfl, rfl, ?_⟩
  intro req h
  unfold exchangeRequestForAgent at h
  split at h
  · exact Except.noConfusion h
  · split at h
    · exact Except.noConfusion h
    · split at h
      · exact Except.noConfusion h
      · split at h
        · exact Except.noConfusion h
        · injection h with h'
          subst h'
          rfl

/-- The request `exchangeRequestForAgent` produces for the one-scope witness. -/
def reqHRread : ExchangeRequestData :=
  { grant_type := "urn:ietf:params:oauth:grant-type:token-exchange"
    subject_token := "subject-token"
    subject_token_type := "urn:ietf:params:oauth:token-type:access_token"
    actor_token := some "agent-actor-token"
    actor_token_type := some "urn:ietf:params:oauth:token-type:access_token"
    audience := none
    scope := some "hr:read" }

/-- Witness for C10: the concrete outgoing request has no audience. -/
theorem c10_witness :
    exchangeRequestForAgent settings0 agents0 fa0 "subject-token" "hr_agent" "audience-a"
      ["hr:read"] = .ok reqHRread ∧
    reqHRread.audience = none :=
  ⟨rfl,
    (c10_audience_discarded settings0 agents0 fa0 idp0 0 [] "subject-token" "hr_agent"
      ["hr:read"] "audience-a" "audience-b").2.2 reqHRread rfl⟩

end BrokerM

namespace ActorCache

open BrokerM (ActorTokenM)

/-- The claim "get_actor_token refreshes once the cached entry is within a
60-second safety margin of expires_at" fails on the code: with a cached token
expiring 30 seconds from now (inside any 60-second margin), the call returns
the cached value and performs no fresh acquisition — the source compares
`expires_at > utcnow()` with no margin. -/
theorem c8_counterexample_within_margin_uses_cache :
    (get_actor_token 1000
      (some { token := "cached-actor-token", actor_id := "orchestrator", expires_at := 1030 })
      { token := "fresh-actor-token", actor_id := "orchestrator", expires_at := 4630 }).acquired
      = false ∧
    (get_actor_token 1000
      (some { token := "cached-actor-token", actor_id := "orchestrator", expires_at := 1030 })
      { token := "fresh-actor-token", actor_id := "orchestrator", expires_at := 4630 }).result.token
      = "cached-actor-token" ∧
    (1030 : Int) - 1000 < 60 := by
  refine ⟨rfl, rfl, by decide⟩

/-- C8 (amended): `get_actor_token` returns the cached token without a new
acquisition exactly while `expires_at` is strictly in the future — there is
no safety margin — and performs a fresh acquisition (caching its result)
exactly when the cache is empty or the cached token has already expired. -/
theorem c8_cache_returned_until_expiry (now : Int) (cached : Option ActorTokenM)
    (fetched : ActorTokenM) :
    ((get_actor_token now cached fetched).acquired = false ↔
      ∃ t, cached = some t ∧ now < t.expires_at) ∧
    (∀ t, cached = some t → now < t.expires_at →
      get_actor_token now cached fetched =
        { result := t, new_cached := some t, acquired := false }) ∧
    (∀ t, cached = some t → t.expires_at ≤ now →
      get_actor_token now cached fetched =
        { result := fetched, new_cached := some fetched, acquired := true }) ∧
    (cached = none →
      get_actor_token now cached fetched =
        { result := fetched, new_cached := some fetched, acquired := true }) := by
  refine ⟨?_, ?_, ?_, ?_⟩
  · cases cached with
    | none => simp [get_actor_token]
    | some t =>
      by_cases hlt : now < t.expires_at
      · simp [get_actor_token, hlt]
      · simp [get_actor_token, hlt]
  · intro t hc hlt
    subst hc
    simp [get_actor_token, hlt]
  · intro t hc hge
    subst hc
    simp [get_actor_token, not_lt.mpr hge]
  · intro hc
    subst hc
    rfl

/-- Witness for the amended C8 at a live cached token. -/
theorem c8_witness :
    (0 : Int) < 100 ∧
    get_actor_token 0 (some { token := "cached", actor_id := "orch", expires_at := 100 })
        { token := "fresh", actor_id := "orch", expires_at := 200 } =
      { result := { token := "cached", actor_id := "orch", expires_at := 100 }
        new_cached := some { token := "cached", actor_id := "orch", expires_at := 100 }
        acquired := false } :=
  ⟨by decide,
    (c8_cache_returned_until_expiry 0
      (some { token := "cached", actor_id := "orch", expires_at := 100 })
      { token := "fresh", actor_id := "orch", expires_at := 200 }).2.1
      { token := "cached", actor_id := "orch", expires_at := 100 } rfl (by decide)⟩

/-- The token produced by the `i`-th started acquisition in the concurrency
counterexample: distinct acquisitions yield distinct token strings. -/
def fetch9 : Nat → ActorTokenM :=
  fun i => { token := "actor-token-" ++ toString i, actor_id := "orchestrator"
             expires_at := 3600 }

/-- The claim "two concurrent get_actor_token calls within the validity window
return an identical token and cause exactly one acquisition" fails on the
code: the cache has no single-flight de-duplication, so in the interleaving
where both callers pass the cache check before either awaited fetch completes
(schedule caller1-check, caller2-check, caller1-finish, caller2-finish), two
acquisitions are started and the callers return different token values. -/
theorem c9_counterexample_double_acquisition :
    (runSched 0 fetch9 [true, false, true, false] initRun).acquisitions = 2 ∧
    (runSched 0 fetch9 [true, false, true, false] initRun).task1 =
      .finished { token := "actor-token-0", actor_id := "orchestrator", expires_at := 3600 } ∧
    (runSched 0 fetch9 [true, false, true, false] initRun).task2 =
      .finished { token := "actor-token-1", actor_id := "orchestrator", expires_at := 3600 } ∧
    ("actor-token-0" : String) ≠ "actor-token-1" := by
  refine ⟨rfl, rfl, rfl, by decide⟩

/-- C9 (amended): the cache de-duplicates only sequentially — a second call
whose cache check runs after the first call's result is stored returns the
identical cached token with exactly one acquisition, but two calls whose
cache checks both precede either store each start their own acquisition. -/
theorem c9_no_single_flight (now : Int) (fetchRes : Nat → ActorTokenM)
    (hlive : now < (fetchRes 0).expires_at) :
    (runSched now fetchRes [true, true, false, false] initRun).acquisitions = 1 ∧
    (runSched now fetchRes [true, true, false, false] initRun).task1 =
      .finished (fetchRes 0) ∧
    (runSched now fetchRes [true, true, false, false] initRun).task2 =
      .finished (fetchRes 0) ∧
    (runSched now fetchRes [true, false, true, false] initRun).acquisitions = 2 := by
  refine ⟨?_, ?_, ?_, ?_⟩ <;>
    simp [runSched, schedStep, phaseStep, initRun, hlive]

/-- Witness for the amended C9 with a concrete clock and fetch results. -/
theorem c9_witness :
    (0 : Int) < (fetch9 0).expires_at ∧
    ((runSched 0 fetch9 [true, true, false, false] initRun).acquisitions = 1 ∧
     (runSched 0 fetch9 [true, true, false, false] initRun).task1 =
       .finished (fetch9 0) ∧
     (runSched 0 fetch9 [true, true, false, false] initRun).task2 =
       .finished (fetch9 0) ∧
     (runSched 0 fetch9 [true, false, true, false] initRun).acquisitions = 2) :=
  ⟨by decide, c9_no_single_flight 0 fetch9 (by decide)⟩

end ActorCache
